import Mathlib

/-!
Verification of the GreenPulse-AI streaming core against its design
specification.  The Python sources are shallowly embedded: Python floats
are modelled as exact rationals (`ℚ`) except where the code calls
transcendental functions (`math.sqrt`, trigonometry), which are modelled
over the reals (`ℝ`); Pathway streaming tables are modelled as lists of
rows, and Pathway keyed tables that are overwritten on refresh are
modelled as the row computed from the latest input.
-/

namespace GreenPulse

/-!
### State machine — `state_machine/vehicle_state.py`

`_determine_state` is a pure per-row UDF; the module-level thresholds are
inlined from the source constants.  Alert and deviation counts come from
`pw.reducers.count()` and are therefore non-negative; they are modelled
as `ℕ`.
-/

/-- State constant `STATE_NORMAL` from the source. -/
def STATE_NORMAL : String := "NORMAL"

/-- State constant `STATE_EFFICIENT` from the source. -/
def STATE_EFFICIENT : String := "EFFICIENT"

/-- State constant `STATE_HIGH_EMISSION` from the source. -/
def STATE_HIGH_EMISSION : String := "HIGH_EMISSION"

/-- State constant `STATE_ROUTE_DEVIATION` from the source. -/
def STATE_ROUTE_DEVIATION : String := "ROUTE_DEVIATION"

/-- State constant `STATE_IDLE` from the source. -/
def STATE_IDLE : String := "IDLE"

/-- State constant `STATE_CRITICAL_RISK` from the source. -/
def STATE_CRITICAL_RISK : String := "CRITICAL_RISK"

/-- Threshold `EMISSION_THRESHOLD_KG = 15.0`. -/
def EMISSION_THRESHOLD_KG : ℚ := 15

/-- Threshold `EFFICIENCY_GOOD_THRESHOLD = 7.0`. -/
def EFFICIENCY_GOOD_THRESHOLD : ℚ := 7

/-- Threshold `IDLE_SPEED_KMH = 5.0`. -/
def IDLE_SPEED_KMH : ℚ := 5

/-- Threshold `CRITICAL_RISK_SCORE = 80.0`. -/
def CRITICAL_RISK_SCORE : ℚ := 80

/-- Threshold `CRITICAL_ALERT_COUNT = 3`. -/
def CRITICAL_ALERT_COUNT : ℕ := 3

/-- Input row of the `_determine_state` UDF (the columns of the `combined`
table in `compute_vehicle_states`). -/
structure StateInput where
  carbon_kg : ℚ
  avg_speed : ℚ
  fuel_efficiency : ℚ
  risk_score : ℚ
  alert_count : ℕ
  route_deviation : ℕ
deriving DecidableEq, Repr

/-- Embedding of the `_determine_state` UDF
(`state_machine/vehicle_state.py`, lines 48-71): first-match-wins chain of
guards in the source's order. -/
def determine_state (i : StateInput) : String :=
  if CRITICAL_RISK_SCORE < i.risk_score ∨ CRITICAL_ALERT_COUNT ≤ i.alert_count then
    STATE_CRITICAL_RISK
  else if i.route_deviation = 1 then STATE_ROUTE_DEVIATION
  else if EMISSION_THRESHOLD_KG < i.carbon_kg then STATE_HIGH_EMISSION
  else if i.avg_speed < IDLE_SPEED_KMH then STATE_IDLE
  else if EFFICIENCY_GOOD_THRESHOLD < i.fuel_efficiency ∧ i.alert_count = 0 then
    STATE_EFFICIENT
  else STATE_NORMAL

/-- Embedding of the `_state_to_risk_level` UDF: a dictionary lookup with
default value `"low"`. -/
def state_to_risk_level (s : String) : String :=
  if s = STATE_CRITICAL_RISK then "critical"
  else if s = STATE_HIGH_EMISSION then "high"
  else if s = STATE_ROUTE_DEVIATION then "high"
  else if s = STATE_IDLE then "medium"
  else if s = STATE_NORMAL then "low"
  else if s = STATE_EFFICIENT then "minimal"
  else "low"

/-- A row of the table returned by `compute_vehicle_states` (the
`enriched` select).  The `transition_reason` column is a formatted string
not referenced by any claim and is not modelled. -/
structure VehicleStateRow where
  vehicle_id : String
  current_state : String
  previous_state : String
  risk_level : String
  risk_score : ℚ
deriving DecidableEq, Repr

/-- The row `compute_vehicle_states` produces for one vehicle from one
classifier input (`state_machine/vehicle_state.py`, lines 181-196).  The
source sets `previous_state=STATE_NORMAL` — a constant — with the comment
"Simplified: full history in state_history table". -/
def vehicle_state_row (vid : String) (i : StateInput) : VehicleStateRow :=
  { vehicle_id := vid
    current_state := determine_state i
    previous_state := STATE_NORMAL
    risk_level := state_to_risk_level (determine_state i)
    risk_score := i.risk_score }

/-- The `vehicle_states` table is keyed by `vehicle_id`: after a sequence
of classification runs for one vehicle (each run refreshing that
vehicle's row), the table holds the row computed from the latest run's
input, or no row when no run has happened. -/
def current_row_after (vid : String) (runs : List StateInput) : Option VehicleStateRow :=
  runs.getLast?.map (vehicle_state_row vid)

/-- A row of the table returned by `compute_state_history` (columns
`vehicle_id`, `state`, `risk_level`; the `reason` column is a formatted
string not referenced by any claim and is not modelled). -/
structure HistoryRow where
  vehicle_id : String
  state : String
  risk_level : String
deriving DecidableEq, Repr

/-- The projection performed by `compute_state_history`
(`state_machine/vehicle_state.py`, lines 201-215): a plain `select` of the
`vehicle_states` table. -/
def history_project (r : VehicleStateRow) : HistoryRow :=
  { vehicle_id := r.vehicle_id, state := r.current_state, risk_level := r.risk_level }

/-- The contents of the `state_history` table for one vehicle after a
sequence of classification runs.  `compute_state_history` is a per-row
`select` of the keyed `vehicle_states` table, so in Pathway's reactive
semantics it mirrors that table: when a vehicle's row is refreshed the
projected row is replaced, and the view holds at most one row per
vehicle — the projection of the current row. -/
def state_history_after (vid : String) (runs : List StateInput) : List HistoryRow :=
  ((current_row_after vid runs).map history_project).toList

/-- Number of consecutive state changes in a sequence of computed
states. -/
def count_transitions : List String → ℕ
  | [] => 0
  | [_] => 0
  | a :: b :: rest => (if a = b then 0 else 1) + count_transitions (b :: rest)

/-- Classifier input with all metrics zero: classifies as `IDLE`
(speed below the idle threshold, no higher-priority rule firing). -/
def input_idle : StateInput :=
  { carbon_kg := 0, avg_speed := 0, fuel_efficiency := 0
    risk_score := 0, alert_count := 0, route_deviation := 0 }

/-- Classifier input with risk score 85 and 4 alerts: classifies as
`CRITICAL_RISK`. -/
def input_critical : StateInput :=
  { carbon_kg := 0, avg_speed := 0, fuel_efficiency := 0
    risk_score := 85, alert_count := 4, route_deviation := 0 }

/-- C2: the state classifier is total — it always returns one of the six
states — and the strict priority order CRITICAL_RISK > ROUTE_DEVIATION >
HIGH_EMISSION > IDLE > EFFICIENT > NORMAL is respected: each state is
returned exactly when its guard holds and no higher-priority guard does;
in particular risk_score = 85 with alert_count = 4 and route_deviation = 0
classifies as CRITICAL_RISK for every carbon, speed, and efficiency
input. -/
theorem determine_state_total_priority :
    (∀ i : StateInput,
      (determine_state i = STATE_NORMAL ∨ determine_state i = STATE_EFFICIENT ∨
        determine_state i = STATE_HIGH_EMISSION ∨
        determine_state i = STATE_ROUTE_DEVIATION ∨
        determine_state i = STATE_IDLE ∨ determine_state i = STATE_CRITICAL_RISK) ∧
      (determine_state i = STATE_CRITICAL_RISK ↔
        80 < i.risk_score ∨ 3 ≤ i.alert_count) ∧
      (determine_state i = STATE_ROUTE_DEVIATION ↔
        ¬(80 < i.risk_score ∨ 3 ≤ i.alert_count) ∧ i.route_deviation = 1) ∧
      (determine_state i = STATE_HIGH_EMISSION ↔
        ¬(80 < i.risk_score ∨ 3 ≤ i.alert_count) ∧ ¬i.route_deviation = 1 ∧
          15 < i.carbon_kg) ∧
      (determine_state i = STATE_IDLE ↔
        ¬(80 < i.risk_score ∨ 3 ≤ i.alert_count) ∧ ¬i.route_deviation = 1 ∧
          ¬15 < i.carbon_kg ∧ i.avg_speed < 5) ∧
      (determine_state i = STATE_EFFICIENT ↔
        ¬(80 < i.risk_score ∨ 3 ≤ i.alert_count) ∧ ¬i.route_deviation = 1 ∧
          ¬15 < i.carbon_kg ∧ ¬i.avg_speed < 5 ∧
          7 < i.fuel_efficiency ∧ i.alert_count = 0)) ∧
    (∀ carbon speed eff : ℚ,
      determine_state ⟨carbon, speed, eff, 85, 4, 0⟩ = STATE_CRITICAL_RISK) := by
  constructor
  · intro i
    unfold determine_state CRITICAL_RISK_SCORE CRITICAL_ALERT_COUNT
      EMISSION_THRESHOLD_KG IDLE_SPEED_KMH EFFICIENCY_GOOD_THRESHOLD
    split_ifs with h1 h2 h3 h4 h5 <;>
      simp_all [STATE_NORMAL, STATE_EFFICIENT, STATE_HIGH_EMISSION,
        STATE_ROUTE_DEVIATION, STATE_IDLE, STATE_CRITICAL_RISK]
  · intro carbon speed eff
    unfold determine_state CRITICAL_RISK_SCORE CRITICAL_ALERT_COUNT
    norm_num

/-- C3 counterexample: two classification runs for one vehicle, both with
all-zero metrics.  The first run computes `IDLE`, yet after the second
run the stored `previous_state` is `NORMAL`, not the preceding run's
`current_state` — the source hardcodes `previous_state=STATE_NORMAL`. -/
theorem previous_state_claim_counterexample :
    determine_state input_idle = STATE_IDLE ∧
    (current_row_after "V-101" [input_idle, input_idle]).map
        VehicleStateRow.previous_state = some STATE_NORMAL ∧
    STATE_NORMAL ≠ STATE_IDLE := by
  refine ⟨by decide, rfl, by decide⟩

/-- C3 amended: after every classification run, for every input, the
`VehicleState` row's `previous_state` field is the constant default state
`NORMAL`, regardless of what any preceding run computed. -/
theorem previous_state_always_normal :
    ∀ (vid : String) (i : StateInput),
      (vehicle_state_row vid i).previous_state = STATE_NORMAL := by
  intro vid i
  rfl

/-- C4: the `state_history` table is a plain projection of the keyed
`vehicle_states` table, so for a three-run sequence whose computed states
are IDLE, CRITICAL_RISK, IDLE — two consecutive state changes — the
history holds a single row (the projection of the latest row), not one
appended `StateTransitionRecord` per change. -/
theorem state_history_not_transition_log :
    [input_idle, input_critical, input_idle].map determine_state =
      [STATE_IDLE, STATE_CRITICAL_RISK, STATE_IDLE] ∧
    count_transitions
      ([input_idle, input_critical, input_idle].map determine_state) = 2 ∧
    (state_history_after "V-101" [input_idle, input_critical, input_idle]).length = 1 := by
  refine ⟨by decide, by decide, rfl⟩

/-!
### Risk scoring — `services/risk_scoring.py`

`compute_risk_scores` builds, per vehicle, three alert counts
(`pw.reducers.count()`, hence `ℕ`), averaged window metrics, the four
impact terms, and the weighted risk score (lines 105-128).
-/

/-- Per-vehicle row feeding the impact computation in
`compute_risk_scores` (the `with_all_alerts` table). -/
structure RiskInput where
  avg_speed : ℚ
  avg_efficiency : ℚ
  avg_carbon_kg : ℚ
  speed_var : ℚ
  threshold_alert_count : ℕ
  zscore_alert_count : ℕ
  route_alert_count : ℕ
deriving DecidableEq, Repr

/-- Column `total_alerts`: sum of the three per-type alert counts. -/
def total_alerts (r : RiskInput) : ℕ :=
  r.threshold_alert_count + r.zscore_alert_count + r.route_alert_count

/-- Column `alert_impact = min(100.0, float(total) * 20.0)`. -/
def alert_impact (r : RiskInput) : ℚ :=
  min 100 ((total_alerts r : ℚ) * 20)

/-- Column `efficiency_impact`: the tiered lookup on `avg_efficiency`. -/
def efficiency_impact (r : RiskInput) : ℚ :=
  if 8 ≤ r.avg_efficiency then 10
  else if 6 ≤ r.avg_efficiency then 25
  else if 4 ≤ r.avg_efficiency then 55
  else 85

/-- Column `carbon_impact = min(100.0, carbon * 5.0)`. -/
def carbon_impact (r : RiskInput) : ℚ :=
  min 100 (r.avg_carbon_kg * 5)

/-- Column `status_impact = min(100.0, route_cnt * 35.0 + (35.0 if
speed_var > 30.0 else 10.0))`. -/
def status_impact (r : RiskInput) : ℚ :=
  min 100 ((r.route_alert_count : ℚ) * 35 + (if 30 < r.speed_var then 35 else 10))

/-- Column `risk_score`: the weighted sum of the four impact terms
(lines 122-128). -/
def risk_score (r : RiskInput) : ℚ :=
  0.35 * alert_impact r + 0.25 * efficiency_impact r
    + 0.25 * carbon_impact r + 0.15 * status_impact r

/-- C5: the risk score decomposes as
0.35·alert_impact + 0.25·efficiency_impact + 0.25·carbon_impact +
0.15·status_impact with the impact formulas the spec states, and for a
non-negative `avg_carbon_kg` (alert counts are non-negative by
construction) every impact term lies in [0, 100]. -/
theorem risk_score_decomposition (r : RiskInput) (h : 0 ≤ r.avg_carbon_kg) :
    risk_score r =
      0.35 * min 100 ((r.threshold_alert_count + r.zscore_alert_count
          + r.route_alert_count : ℚ) * 20)
      + 0.25 * (if 8 ≤ r.avg_efficiency then (10 : ℚ)
          else if 6 ≤ r.avg_efficiency then 25
          else if 4 ≤ r.avg_efficiency then 55 else 85)
      + 0.25 * min 100 (r.avg_carbon_kg * 5)
      + 0.15 * min 100 ((r.route_alert_count : ℚ) * 35
          + (if 30 < r.speed_var then 35 else 10)) ∧
    (0 ≤ alert_impact r ∧ alert_impact r ≤ 100) ∧
    (0 ≤ efficiency_impact r ∧ efficiency_impact r ≤ 100) ∧
    (0 ≤ carbon_impact r ∧ carbon_impact r ≤ 100) ∧
    (0 ≤ status_impact r ∧ status_impact r ≤ 100) := by
  refine ⟨?_, ⟨?_, ?_⟩, ⟨?_, ?_⟩, ⟨?_, ?_⟩, ⟨?_, ?_⟩⟩
  · unfold risk_score alert_impact efficiency_impact carbon_impact status_impact total_alerts
    push_cast
    ring_nf
  · unfold alert_impact
    have : (0 : ℚ) ≤ (total_alerts r : ℚ) * 20 := by positivity
    exact le_min (by norm_num) this
  · exact min_le_left _ _
  · unfold efficiency_impact
    split_ifs <;> norm_num
  · unfold efficiency_impact
    split_ifs <;> norm_num
  · unfold carbon_impact
    exact le_min (by norm_num) (by nlinarith)
  · exact min_le_left _ _
  · unfold status_impact
    have h1 : (0 : ℚ) ≤ (r.route_alert_count : ℚ) * 35 := by positivity
    have h2 : (0 : ℚ) ≤ (if 30 < r.speed_var then (35 : ℚ) else 10) := by
      split_ifs <;> norm_num
    exact le_min (by norm_num) (by linarith)
  · exact min_le_left _ _

/-- C5 witness: the decomposition and bounds instantiated at a concrete
row with `avg_carbon_kg = 3`. -/
theorem risk_score_decomposition_witness :
    (0 : ℚ) ≤ (RiskInput.mk 50 5 3 10 1 0 0).avg_carbon_kg ∧
    (risk_score (RiskInput.mk 50 5 3 10 1 0 0) =
      0.35 * min 100 (((RiskInput.mk 50 5 3 10 1 0 0).threshold_alert_count
          + (RiskInput.mk 50 5 3 10 1 0 0).zscore_alert_count
          + (RiskInput.mk 50 5 3 10 1 0 0).route_alert_count : ℚ) * 20)
      + 0.25 * (if 8 ≤ (RiskInput.mk 50 5 3 10 1 0 0).avg_efficiency then (10 : ℚ)
          else if 6 ≤ (RiskInput.mk 50 5 3 10 1 0 0).avg_efficiency then 25
          else if 4 ≤ (RiskInput.mk 50 5 3 10 1 0 0).avg_efficiency then 55 else 85)
      + 0.25 * min 100 ((RiskInput.mk 50 5 3 10 1 0 0).avg_carbon_kg * 5)
      + 0.15 * min 100 (((RiskInput.mk 50 5 3 10 1 0 0).route_alert_count : ℚ) * 35
          + (if 30 < (RiskInput.mk 50 5 3 10 1 0 0).speed_var then 35 else 10)) ∧
    (0 ≤ alert_impact (RiskInput.mk 50 5 3 10 1 0 0) ∧
      alert_impact (RiskInput.mk 50 5 3 10 1 0 0) ≤ 100) ∧
    (0 ≤ efficiency_impact (RiskInput.mk 50 5 3 10 1 0 0) ∧
      efficiency_impact (RiskInput.mk 50 5 3 10 1 0 0) ≤ 100) ∧
    (0 ≤ carbon_impact (RiskInput.mk 50 5 3 10 1 0 0) ∧
      carbon_impact (RiskInput.mk 50 5 3 10 1 0 0) ≤ 100) ∧
    (0 ≤ status_impact (RiskInput.mk 50 5 3 10 1 0 0) ∧
      status_impact (RiskInput.mk 50 5 3 10 1 0 0) ≤ 100)) :=
  ⟨by norm_num, risk_score_decomposition (RiskInput.mk 50 5 3 10 1 0 0) (by norm_num)⟩

/-- C10: for non-negative carbon input (alert counts are non-negative by
construction), the computed risk score always lies in [4, 96.25]: the
efficiency and status impacts are at least 10, giving the floor
0.25·10 + 0.15·10 = 4, and the efficiency impact is at most 85, giving
the cap 0.35·100 + 0.25·85 + 0.25·100 + 0.15·100 = 96.25. -/
theorem risk_score_bounds (r : RiskInput) (h : 0 ≤ r.avg_carbon_kg) :
    4 ≤ risk_score r ∧ risk_score r ≤ 96.25 := by
  have ha0 : 0 ≤ alert_impact r := by
    unfold alert_impact
    exact le_min (by norm_num) (by positivity)
  have ha1 : alert_impact r ≤ 100 := min_le_left _ _
  have he0 : 10 ≤ efficiency_impact r := by
    unfold efficiency_impact
    split_ifs <;> norm_num
  have he1 : efficiency_impact r ≤ 85 := by
    unfold efficiency_impact
    split_ifs <;> norm_num
  have hc0 : 0 ≤ carbon_impact r := by
    unfold carbon_impact
    exact le_min (by norm_num) (by nlinarith)
  have hc1 : carbon_impact r ≤ 100 := min_le_left _ _
  have hs0 : 10 ≤ status_impact r := by
    unfold status_impact
    have h1 : (0 : ℚ) ≤ (r.route_alert_count : ℚ) * 35 := by positivity
    have h2 : (10 : ℚ) ≤ (if 30 < r.speed_var then (35 : ℚ) else 10) := by
      split_ifs <;> norm_num
    exact le_min (by norm_num) (by linarith)
  have hs1 : status_impact r ≤ 100 := min_le_left _ _
  unfold risk_score
  constructor <;> nlinarith

/-- C10 witness: the bounds instantiated at a concrete row with
`avg_carbon_kg = 2`. -/
theorem risk_score_bounds_witness :
    (0 : ℚ) ≤ (RiskInput.mk 60 9 2 5 0 0 0).avg_carbon_kg ∧
    (4 ≤ risk_score (RiskInput.mk 60 9 2 5 0 0 0) ∧
      risk_score (RiskInput.mk 60 9 2 5 0 0 0) ≤ 96.25) :=
  ⟨by norm_num, risk_score_bounds (RiskInput.mk 60 9 2 5 0 0 0) (by norm_num)⟩

/-!
### Temporal join — `streaming/joins.py`

`join_gps_fuel` is `pw.temporal.interval_join(gps, fuel, gps.parsed_time,
fuel.parsed_time, pw.temporal.interval(-30, 30), gps.vehicle_id ==
fuel.vehicle_id)` followed by a `select`: an inner interval join emitting
one output row for every (gps, fuel) pair with equal `vehicle_id` and
`fuel.parsed_time - gps.parsed_time` inside [-30, 30]. -/

/-- A GPS stream row (`vehicle_id`, coordinates, speed, parsed event
time in seconds). -/
structure GPSEvent where
  vehicle_id : String
  latitude : ℚ
  longitude : ℚ
  speed : ℚ
  parsed_time : ℤ
deriving DecidableEq, Repr

/-- A fuel stream row. -/
structure FuelEvent where
  vehicle_id : String
  fuel_liters : ℚ
  distance_km : ℚ
  fuel_type : String
  parsed_time : ℤ
deriving DecidableEq, Repr

/-- A row of the joined telemetry table (the `select` in
`join_gps_fuel`). -/
structure TelemetryRecord where
  vehicle_id : String
  latitude : ℚ
  longitude : ℚ
  speed : ℚ
  fuel_liters : ℚ
  distance_km : ℚ
  fuel_type : String
  timestamp : ℤ
deriving DecidableEq, Repr

/-- Embedding of `join_gps_fuel` (`streaming/joins.py`, lines 35-53):
for each GPS row, one output row per fuel row of the same vehicle whose
time is within ±30 seconds of the GPS time (Pathway's
`interval_join` with `interval(-30, 30)`, bounds inclusive). -/
def join_gps_fuel (gps : List GPSEvent) (fuel : List FuelEvent) :
    List TelemetryRecord :=
  gps.flatMap fun g =>
    (fuel.filter fun f =>
        decide (g.vehicle_id = f.vehicle_id) &&
        decide (-30 ≤ f.parsed_time - g.parsed_time) &&
        decide (f.parsed_time - g.parsed_time ≤ 30)).map fun f =>
      { vehicle_id := g.vehicle_id
        latitude := g.latitude
        longitude := g.longitude
        speed := g.speed
        fuel_liters := f.fuel_liters
        distance_km := f.distance_km
        fuel_type := f.fuel_type
        timestamp := g.parsed_time }

/-- A single GPS event at time 0 for vehicle V-101. -/
def gps_t0 : GPSEvent :=
  { vehicle_id := "V-101", latitude := 0, longitude := 0, speed := 50
    parsed_time := 0 }

/-- A fuel event for V-101 at time 0 (time delta 0 to `gps_t0`). -/
def fuel_t0 : FuelEvent :=
  { vehicle_id := "V-101", fuel_liters := 2, distance_km := 1
    fuel_type := "diesel", parsed_time := 0 }

/-- A fuel event for V-101 at time 10 (time delta 10 to `gps_t0`). -/
def fuel_t10 : FuelEvent :=
  { vehicle_id := "V-101", fuel_liters := 3, distance_km := 1
    fuel_type := "diesel", parsed_time := 10 }

/-- C1 failing input: one GPS event with two fuel events of the same
vehicle inside the ±30 s tolerance.  The interval join emits two
`TelemetryRecord`s — one per in-tolerance fuel event — carrying both fuel
readings, not exactly one record matched to the minimum-|Δt| fuel event
(which would be the single record with `fuel_liters = 2`). -/
theorem join_gps_fuel_emits_all_pairs :
    (join_gps_fuel [gps_t0] [fuel_t0, fuel_t10]).length = 2 ∧
    (join_gps_fuel [gps_t0] [fuel_t0, fuel_t10]).map TelemetryRecord.fuel_liters =
      [2, 3] := by
  refine ⟨rfl, by decide⟩

/-!
### Window aggregation — `streaming/windows.py`

`compute_rolling_windows` reduces each 5-minute tumbling window (keyed by
`vehicle_id`) with avg/max/min of speed, sums of fuel and distance, and a
count, then attaches the derived columns.  A window is modelled by the
list of telemetry rows it contains, in arrival order. -/

/-- Config constant `default_emission_factor = 2.68` (kg CO2 per litre,
`config/__init__.py`). -/
def default_emission_factor : ℚ := 2.68

/-- The `pw.reducers.max` of a rational column, as a fold over the rows
in `WithBot ℚ` (`⊥` for the impossible empty window). -/
def reducer_max (l : List ℚ) : WithBot ℚ :=
  (l.map WithBot.some).foldr max ⊥

/-- The `pw.reducers.min` of a rational column, as a fold over the rows
in `WithTop ℚ`. -/
def reducer_min (l : List ℚ) : WithTop ℚ :=
  (l.map WithTop.some).foldr min ⊤

/-- A row of the table returned by `compute_rolling_windows`: the
reducer columns of the `reduce` plus the derived columns of the
`with_columns` (window bounds omitted — they are the fixed bucket of the
key, not computed from the rows). -/
structure WindowSnapshot where
  vehicle_id : String
  avg_speed : ℚ
  max_speed : ℚ
  min_speed : ℚ
  total_fuel : ℚ
  total_distance : ℚ
  data_points : ℕ
  carbon_kg : ℚ
  fuel_efficiency : ℚ
  speed_variance : ℚ
deriving DecidableEq, Repr

/-- Embedding of `compute_rolling_windows` (`streaming/windows.py`,
lines 41-71) on one window's content: the reducers over the rows,
followed by the derived columns `carbon_kg = total_fuel × factor`,
`fuel_efficiency = total_distance / total_fuel` if `total_fuel > 0` else
0, and `speed_variance = max_speed − min_speed`.  Windows hold at least
one row; on that range the `WithBot`/`WithTop` folds are the column
max/min. -/
def compute_window_snapshot (vid : String) (es : List TelemetryRecord) :
    WindowSnapshot :=
  let total_fuel := (es.map TelemetryRecord.fuel_liters).sum
  let total_distance := (es.map TelemetryRecord.distance_km).sum
  let max_speed := (reducer_max (es.map TelemetryRecord.speed)).unbot' 0
  let min_speed := (reducer_min (es.map TelemetryRecord.speed)).untop' 0
  { vehicle_id := vid
    avg_speed := (es.map TelemetryRecord.speed).sum / es.length
    max_speed := max_speed
    min_speed := min_speed
    total_fuel := total_fuel
    total_distance := total_distance
    data_points := es.length
    carbon_kg := total_fuel * default_emission_factor
    fuel_efficiency := if 0 < total_fuel then total_distance / total_fuel else 0
    speed_variance := max_speed - min_speed }

/-- Folding `max` over a list in a linear order is invariant under
permutation of the list. -/
theorem perm_foldr_max {α : Type*} [LinearOrder α] {l₁ l₂ : List α}
    (h : l₁.Perm l₂) (b : α) : l₁.foldr max b = l₂.foldr max b :=
  h.foldr_op_eq

/-- Folding `min` over a list in a linear order is invariant under
permutation of the list. -/
theorem perm_foldr_min {α : Type*} [LinearOrder α] {l₁ l₂ : List α}
    (h : l₁.Perm l₂) (b : α) : l₁.foldr min b = l₂.foldr min b :=
  h.foldr_op_eq

/-- C6: every emitted snapshot satisfies `carbon_kg = total_fuel × 2.68`,
`fuel_efficiency = total_distance / total_fuel` when `total_fuel > 0` and
0 otherwise, and `speed_variance = max_speed − min_speed`; and the whole
snapshot depends only on the multiset of rows in the window — any
permutation of the arrival order yields the same snapshot. -/
theorem window_snapshot_spec :
    (∀ (vid : String) (es : List TelemetryRecord),
      (compute_window_snapshot vid es).carbon_kg =
        (compute_window_snapshot vid es).total_fuel * 2.68 ∧
      (compute_window_snapshot vid es).fuel_efficiency =
        (if 0 < (compute_window_snapshot vid es).total_fuel then
          (compute_window_snapshot vid es).total_distance /
            (compute_window_snapshot vid es).total_fuel
        else 0) ∧
      (compute_window_snapshot vid es).speed_variance =
        (compute_window_snapshot vid es).max_speed -
          (compute_window_snapshot vid es).min_speed) ∧
    (∀ (vid : String) (es es' : List TelemetryRecord), es.Perm es' →
      compute_window_snapshot vid es = compute_window_snapshot vid es') := by
  constructor
  · intro vid es
    exact ⟨rfl, rfl, rfl⟩
  · intro vid es es' h
    have hsum : ∀ f : TelemetryRecord → ℚ, (es.map f).sum = (es'.map f).sum :=
      fun f => (h.map f).sum_eq
    have hlen : es.length = es'.length := h.length_eq
    have hmax : reducer_max (es.map TelemetryRecord.speed) =
        reducer_max (es'.map TelemetryRecord.speed) := by
      unfold reducer_max
      exact perm_foldr_max ((h.map TelemetryRecord.speed).map _) _
    have hmin : reducer_min (es.map TelemetryRecord.speed) =
        reducer_min (es'.map TelemetryRecord.speed) := by
      unfold reducer_min
      exact perm_foldr_min ((h.map TelemetryRecord.speed).map _) _
    unfold compute_window_snapshot
    simp only [hsum, hlen, hmax, hmin]

/-- A concrete telemetry row for the C6 witness window. -/
def rec_a : TelemetryRecord :=
  { vehicle_id := "V-101", latitude := 1, longitude := 2, speed := 40
    fuel_liters := 2, distance_km := 10, fuel_type := "diesel", timestamp := 0 }

/-- A second concrete telemetry row for the C6 witness window. -/
def rec_b : TelemetryRecord :=
  { vehicle_id := "V-101", latitude := 1, longitude := 2, speed := 60
    fuel_liters := 4, distance_km := 20, fuel_type := "diesel", timestamp := 30 }

/-- C6 witness: the equations at a concrete two-row window, and order
insensitivity for the two arrival orders of those rows. -/
theorem window_snapshot_spec_witness :
    ((compute_window_snapshot "V-101" [rec_a, rec_b]).carbon_kg =
        (compute_window_snapshot "V-101" [rec_a, rec_b]).total_fuel * 2.68 ∧
      (compute_window_snapshot "V-101" [rec_a, rec_b]).fuel_efficiency =
        (if 0 < (compute_window_snapshot "V-101" [rec_a, rec_b]).total_fuel then
          (compute_window_snapshot "V-101" [rec_a, rec_b]).total_distance /
            (compute_window_snapshot "V-101" [rec_a, rec_b]).total_fuel
        else 0) ∧
      (compute_window_snapshot "V-101" [rec_a, rec_b]).speed_variance =
        (compute_window_snapshot "V-101" [rec_a, rec_b]).max_speed -
          (compute_window_snapshot "V-101" [rec_a, rec_b]).min_speed) ∧
    ([rec_a, rec_b].Perm [rec_b, rec_a] ∧
      compute_window_snapshot "V-101" [rec_a, rec_b] =
        compute_window_snapshot "V-101" [rec_b, rec_a]) :=
  ⟨window_snapshot_spec.1 "V-101" [rec_a, rec_b],
    List.Perm.swap rec_b rec_a [],
    window_snapshot_spec.2 "V-101" [rec_a, rec_b] [rec_b, rec_a]
      (List.Perm.swap rec_b rec_a [])⟩

/-!
### Forecasting — `forecasting/predictor.py`

`_fuel_exhaustion_minutes` (lines 113-140) derives a consumption rate
from the window's total fuel, returns the sentinel −1 for negligible
rates, and otherwise rounds the remaining-minutes estimate to one
decimal.  Python's built-in `round` rounds half to even. -/

/-- Round-half-to-even on a rational (the semantics of Python's built-in
`round` to zero decimal places, on exact values). -/
def round_half_even (x : ℚ) : ℤ :=
  let f := ⌊x⌋
  let r := x - f
  if r < 1/2 then f
  else if 1/2 < r then f + 1
  else if Even f then f else f + 1

/-- `round(x, 1)` in Python: round half to even at one decimal place. -/
def py_round1 (x : ℚ) : ℚ :=
  (round_half_even (x * 10) : ℚ) / 10

/-- Embedding of the `_fuel_exhaustion_minutes` UDF: rate =
`avg_fuel_consumed / 5` L/min; sentinel −1 when `rate < 0.01`; otherwise
`round(max(0.0, (40 − 10) / rate), 1)`.  The unused `avg_efficiency` and
`avg_speed` parameters of the source are kept. -/
def fuel_exhaustion_minutes (avg_fuel_consumed avg_efficiency avg_speed : ℚ) : ℚ :=
  let fuel_rate_per_min := avg_fuel_consumed / 5
  if fuel_rate_per_min < 0.01 then -1
  else py_round1 (max 0 ((40 - 10) / fuel_rate_per_min))

/-- C8 counterexample: at `avg_fuel_consumed = 45` the rate is 9 L/min
and `(40 − 10) / rate = 10/3`, but the code returns the rounded value
`3.3 = 33/10`, so the claim's exact equation fails. -/
theorem fuel_exhaustion_claim_counterexample :
    ¬((45 : ℚ) / 5 < 0.01) ∧
    fuel_exhaustion_minutes 45 0 0 = 33/10 ∧
    (33/10 : ℚ) ≠ (40 - 10) / ((45 : ℚ) / 5) := by
  refine ⟨by norm_num, ?_, by norm_num⟩
  norm_num [fuel_exhaustion_minutes, py_round1, round_half_even]

/-- Rounding half to even sends non-negative rationals to non-negative
integers. -/
theorem round_half_even_nonneg {x : ℚ} (hx : 0 ≤ x) : 0 ≤ round_half_even x := by
  have hf : (0 : ℤ) ≤ ⌊x⌋ := Int.floor_nonneg.2 hx
  unfold round_half_even
  dsimp only
  split_ifs <;> omega

/-- C8 amended: rate = `avg_fuel_consumed / 5`; if `rate < 0.01` the
function returns the sentinel −1 (in particular at rate 0); otherwise it
returns `(40 − 10) / rate` floored at 0 and rounded to one decimal
place, which is always non-negative. -/
theorem fuel_exhaustion_spec (f e s : ℚ) :
    (f / 5 < 0.01 → fuel_exhaustion_minutes f e s = -1) ∧
    (¬f / 5 < 0.01 →
      fuel_exhaustion_minutes f e s = py_round1 (max 0 ((40 - 10) / (f / 5))) ∧
      0 ≤ fuel_exhaustion_minutes f e s) ∧
    fuel_exhaustion_minutes 0 e s = -1 := by
  refine ⟨fun h => ?_, fun h => ⟨?_, ?_⟩, ?_⟩
  · simp only [fuel_exhaustion_minutes, if_pos h]
  · simp only [fuel_exhaustion_minutes, if_neg h]
  · simp only [fuel_exhaustion_minutes, if_neg h, py_round1]
    have h0 : (0 : ℚ) ≤ max 0 ((40 - 10) / (f / 5)) * 10 := by positivity
    have := round_half_even_nonneg h0
    positivity
  · simp only [fuel_exhaustion_minutes]
    norm_num

/-- C8 witness: at `avg_fuel_consumed = 10` the rate is 2 L/min, above
the sentinel threshold, and the result is the rounded non-negative
estimate; at `avg_fuel_consumed = 0` the sentinel −1 is returned. -/
theorem fuel_exhaustion_spec_witness :
    ¬((10 : ℚ) / 5 < 0.01) ∧
    (fuel_exhaustion_minutes 10 0 0 = py_round1 (max 0 ((40 - 10) / ((10 : ℚ) / 5))) ∧
      0 ≤ fuel_exhaustion_minutes 10 0 0) ∧
    fuel_exhaustion_minutes 0 0 0 = -1 :=
  ⟨by norm_num, (fuel_exhaustion_spec 10 0 0).2.1 (by norm_num),
    (fuel_exhaustion_spec 10 0 0).2.2⟩

/-!
### Z-score anomaly detection — `anomalies/zscore.py`

`detect_zscore_anomalies` reduces each sliding window (per vehicle) to
mean, mean-of-squares and latest value for speed and carbon, computes
`std = max(sqrt(max(E[x²] − E[x]², 0)), 0.001)` and
`z = |latest − mean| / std`, and keeps the row iff either z-score exceeds
the threshold 2.5 (`config.anomaly.zscore_threshold`).  A window is
modelled by the list of its rows in event order; `math.sqrt` forces the
real numbers here. -/

/-- The speed and carbon columns of one telemetry row as consumed by the
z-score detector. -/
structure ZEvent where
  speed : ℝ
  carbon_kg : ℝ

/-- The `pw.reducers.avg` of a real column. -/
noncomputable def column_mean (l : List ℝ) : ℝ := l.sum / l.length

/-- The `pw.reducers.latest` of a real column: the most recent value
(windows hold at least one row; 0 is a placeholder for the impossible
empty window). -/
def reducer_latest (l : List ℝ) : ℝ := l.getLast?.getD 0

/-- The std computation of `detect_zscore_anomalies`:
`max(math.sqrt(max(avg_sq - avg*avg, 0)), 0.001)`. -/
noncomputable def std_from_moments (avg_sq mean : ℝ) : ℝ :=
  max (Real.sqrt (max (avg_sq - mean * mean) 0)) 0.001

/-- Reducer column `mean_speed`. -/
noncomputable def mean_speed (w : List ZEvent) : ℝ :=
  column_mean (w.map ZEvent.speed)

/-- Reducer column `avg_speed_sq` (average of `speed * speed`). -/
noncomputable def avg_speed_sq (w : List ZEvent) : ℝ :=
  column_mean (w.map fun e => e.speed * e.speed)

/-- Reducer column `mean_carbon`. -/
noncomputable def mean_carbon (w : List ZEvent) : ℝ :=
  column_mean (w.map ZEvent.carbon_kg)

/-- Reducer column `avg_carbon_sq`. -/
noncomputable def avg_carbon_sq (w : List ZEvent) : ℝ :=
  column_mean (w.map fun e => e.carbon_kg * e.carbon_kg)

/-- Column `latest_speed`. -/
def latest_speed (w : List ZEvent) : ℝ :=
  reducer_latest (w.map ZEvent.speed)

/-- Column `latest_carbon`. -/
def latest_carbon (w : List ZEvent) : ℝ :=
  reducer_latest (w.map ZEvent.carbon_kg)

/-- Column `std_speed`. -/
noncomputable def std_speed (w : List ZEvent) : ℝ :=
  std_from_moments (avg_speed_sq w) (mean_speed w)

/-- Column `std_carbon`. -/
noncomputable def std_carbon (w : List ZEvent) : ℝ :=
  std_from_moments (avg_carbon_sq w) (mean_carbon w)

/-- Column `speed_zscore = abs(val - mean) / std`. -/
noncomputable def speed_zscore (w : List ZEvent) : ℝ :=
  |latest_speed w - mean_speed w| / std_speed w

/-- Column `carbon_zscore`. -/
noncomputable def carbon_zscore (w : List ZEvent) : ℝ :=
  |latest_carbon w - mean_carbon w| / std_carbon w

/-- Config constant `zscore_threshold = 2.5`. -/
noncomputable def zscore_threshold : ℝ := 2.5

/-- The filter of `detect_zscore_anomalies`: the window's row survives
into the anomaly table iff either z-score exceeds the threshold. -/
noncomputable def zscore_anomaly (w : List ZEvent) : Prop :=
  zscore_threshold < speed_zscore w ∨ zscore_threshold < carbon_zscore w

/-- C7: for every sliding window, the standard deviations equal
`sqrt(max(E[x²] − E[x]², 0))` floored at 0.001, are at least 0.001 and
hence strictly positive and non-zero (the z-score division is defined),
and a z-score anomaly fires iff `|latest − mean| / std > 2.5` for speed
or for carbon, where the latest value is the window's most recent
event. -/
theorem zscore_detector_spec :
    ∀ w : List ZEvent,
      std_speed w =
        max (Real.sqrt (max (avg_speed_sq w - mean_speed w * mean_speed w) 0)) 0.001 ∧
      std_carbon w =
        max (Real.sqrt (max (avg_carbon_sq w - mean_carbon w * mean_carbon w) 0)) 0.001 ∧
      (0.001 ≤ std_speed w ∧ 0 < std_speed w ∧ std_speed w ≠ 0) ∧
      (0.001 ≤ std_carbon w ∧ 0 < std_carbon w ∧ std_carbon w ≠ 0) ∧
      latest_speed w = reducer_latest (w.map ZEvent.speed) ∧
      (zscore_anomaly w ↔
        2.5 < |latest_speed w - mean_speed w| / std_speed w ∨
        2.5 < |latest_carbon w - mean_carbon w| / std_carbon w) := by
  intro w
  have hs : (0.001 : ℝ) ≤ std_speed w := le_max_right _ _
  have hc : (0.001 : ℝ) ≤ std_carbon w := le_max_right _ _
  have hs0 : (0 : ℝ) < std_speed w := lt_of_lt_of_le (by norm_num) hs
  have hc0 : (0 : ℝ) < std_carbon w := lt_of_lt_of_le (by norm_num) hc
  exact ⟨rfl, rfl, ⟨hs, hs0, ne_of_gt hs0⟩, ⟨hc, hc0, ne_of_gt hc0⟩, rfl, Iff.rfl⟩

/-!
### Route deviation — `anomalies/route_deviation.py`

`haversine_km` is the great-circle distance on a sphere of radius
6371 km via `math.sin`, `math.cos`, `math.atan2` and `math.sqrt`;
`detect_route_deviations` flags a telemetry row when the distance from
the vehicle's expected route centre exceeds
`config.anomaly.route_bounds_km = 5`, with severity critical above 3×
that bound and high above 2×. -/

/-- Embedding of `math.radians`: degrees to radians. -/
noncomputable def radians (x : ℝ) : ℝ := x * Real.pi / 180

/-- Embedding of `math.atan2 y x`: the two-argument arctangent, with the
IEEE convention `atan2 0 0 = 0`. -/
noncomputable def atan2 (y x : ℝ) : ℝ :=
  if 0 < x then Real.arctan (y / x)
  else if x < 0 then
    (if 0 ≤ y then Real.arctan (y / x) + Real.pi
     else Real.arctan (y / x) - Real.pi)
  else
    (if 0 < y then Real.pi / 2 else if y < 0 then -(Real.pi / 2) else 0)

/-- Embedding of `haversine_km` (`anomalies/route_deviation.py`,
lines 28-40): Earth radius `R = 6371.0` km. -/
noncomputable def haversine_km (lat1 lon1 lat2 lon2 : ℝ) : ℝ :=
  let dlat := radians (lat2 - lat1)
  let dlon := radians (lon2 - lon1)
  let a := Real.sin (dlat / 2) ^ 2 +
    Real.cos (radians lat1) * Real.cos (radians lat2) * Real.sin (dlon / 2) ^ 2
  let c := 2 * atan2 (Real.sqrt a) (Real.sqrt (1 - a))
  6371.0 * c

/-- The keys of the `EXPECTED_ROUTES` dictionary. -/
def route_keys : List String :=
  ["V-101", "V-102", "V-103", "V-104", "V-105", "V-106"]

/-- Embedding of `EXPECTED_ROUTES.get(vehicle_id, (40.7128, -74.0060))`:
the per-vehicle expected route centre, defaulting to the New York
reference point for unknown vehicle ids. -/
noncomputable def expected_route (vid : String) : ℝ × ℝ :=
  if vid = "V-101" then (40.7128, -74.0060)
  else if vid = "V-102" then (42.3601, -71.0589)
  else if vid = "V-103" then (39.9526, -75.1652)
  else if vid = "V-104" then (40.7357, -74.1724)
  else if vid = "V-105" then (41.7658, -72.6734)
  else if vid = "V-106" then (39.2904, -76.6122)
  else (40.7128, -74.0060)

/-- Embedding of `_compute_deviation`: distance from the expected route
centre. -/
noncomputable def compute_deviation (vid : String) (lat lon : ℝ) : ℝ :=
  haversine_km lat lon (expected_route vid).1 (expected_route vid).2

/-- Config constant `route_bounds_km = 5.0`. -/
noncomputable def route_bounds_km : ℝ := 5

/-- The coordinate columns of a telemetry row consumed by the route
deviation detector. -/
structure GeoRecord where
  vehicle_id : String
  latitude : ℝ
  longitude : ℝ

/-- A route-deviation alert row (`select` of
`detect_route_deviations`; the formatted `message`, the echoed
coordinates and the timestamp are not referenced by any claim and are
not modelled). -/
structure RouteAlert where
  vehicle_id : String
  anomaly_type : String
  severity : String
  deviation_km : ℝ

/-- Column `route_deviation_km` of the `with_deviation` table. -/
noncomputable def route_deviation_km (rec : GeoRecord) : ℝ :=
  compute_deviation rec.vehicle_id rec.latitude rec.longitude

/-- Embedding of `detect_route_deviations` (`anomalies/route_deviation.py`,
lines 62-106) on one telemetry row: the row yields an alert iff its
deviation exceeds `route_bounds_km`, with severity critical above
`route_bounds_km * 3`, high above `route_bounds_km * 2`, else medium. -/
noncomputable def detect_route_deviation (rec : GeoRecord) : Option RouteAlert :=
  if route_bounds_km < route_deviation_km rec then
    some { vehicle_id := rec.vehicle_id
           anomaly_type := "route_deviation"
           severity :=
             if route_bounds_km * 3 < route_deviation_km rec then "critical"
             else if route_bounds_km * 2 < route_deviation_km rec then "high"
             else "medium"
           deviation_km := route_deviation_km rec }
  else none

/-- C9: the haversine distance of a point to itself is 0; unknown
vehicle ids use the documented default reference point; and a telemetry
row is flagged iff its haversine distance to the vehicle's reference
point exceeds 5 km, with severity critical above 15 km, high above
10 km, else medium. -/
theorem route_deviation_detector_spec :
    (∀ lat lon : ℝ, haversine_km lat lon lat lon = 0) ∧
    (∀ vid : String, vid ∉ route_keys → ∀ lat lon : ℝ,
      compute_deviation vid lat lon = haversine_km lat lon 40.7128 (-74.0060)) ∧
    (∀ rec : GeoRecord,
      ((detect_route_deviation rec).isSome ↔ 5 < route_deviation_km rec) ∧
      (detect_route_deviation rec).map RouteAlert.severity =
        (if 5 < route_deviation_km rec then
          some (if 15 < route_deviation_km rec then "critical"
            else if 10 < route_deviation_km rec then "high" else "medium")
        else none)) := by
  refine ⟨?_, ?_, ?_⟩
  · intro lat lon
    unfold haversine_km radians
    simp only [sub_self, zero_mul, zero_div, Real.sin_zero]
    norm_num [atan2, Real.arctan_zero]
  · intro vid h lat lon
    simp only [route_keys, List.mem_cons, List.not_mem_nil, or_false, not_or] at h
    obtain ⟨h1, h2, h3, h4, h5, h6⟩ := h
    unfold compute_deviation expected_route
    simp only [if_neg h1, if_neg h2, if_neg h3, if_neg h4, if_neg h5, if_neg h6]
  · intro rec
    unfold detect_route_deviation route_bounds_km
    simp only [show (5 : ℝ) * 3 = 15 from by norm_num,
      show (5 : ℝ) * 2 = 10 from by norm_num]
    constructor
    · split_ifs with h <;> simp [h]
    · split_ifs <;> simp

/-- C9 witness: the self-distance example at the New York reference
point, and the default reference point for the unknown vehicle id
V-999. -/
theorem route_deviation_detector_spec_witness :
    haversine_km 40.7128 (-74.0060) 40.7128 (-74.0060) = 0 ∧
    ("V-999" ∉ route_keys ∧
      compute_deviation "V-999" 1 2 = haversine_km 1 2 40.7128 (-74.0060)) :=
  ⟨route_deviation_detector_spec.1 40.7128 (-74.0060),
    by decide,
    route_deviation_detector_spec.2.1 "V-999" (by decide) 1 2⟩

end GreenPulse
